import Mathlib

/-!
# Verification of the `,hvec` transcoder wrapper

A shallow embedding of `src/,hvec.py` (a CLI wrapper around ffmpeg/ffprobe):
the media data model produced by the probe, the transcode-time estimator
(`estimate_transcode_time`, lines 119-149), the ffmpeg command builder
(`main`, lines 97-115), and the control flow of `main` / `run_ffmpeg_command`
(exit codes and which external tools get invoked).

Strings coming out of ffprobe are modelled as ASCII strings; Python's
`str.isdigit` is modelled as "non-empty and every character is an ASCII
decimal digit", which agrees with Python on the ASCII strings ffprobe emits.
-/

namespace Hvec

/-- `ESTIMATED_FPS = 85`, the performance constant at line 32 of the source. -/
def ESTIMATED_FPS : ℕ := 85

/-- One entry of the `streams` array of the ffprobe JSON report.  Only the
fields read by `estimate_transcode_time` are modelled; an absent JSON key is
`none` (the source reads them with `dict.get`). -/
structure StreamInfo where
  codec_type : String
  nb_frames : Option String
  duration : Option String
  avg_frame_rate : Option String
  deriving DecidableEq, Repr

/-- The `format` object of the ffprobe JSON report (container-level data). -/
structure FormatInfo where
  duration : Option String
  deriving DecidableEq, Repr

/-- A parsed ffprobe report: `media_info` at line 125 of the source. -/
structure MediaProbeResult where
  streams : List StreamInfo
  format : FormatInfo
  deriving DecidableEq, Repr

/-- Python `str.split(sep)` for a one-character separator, on the character
list of a string: split at every occurrence of `sep`, keeping empty parts
(so the result is always non-empty, and `"".split(sep) = [""]`). -/
def splitOnChar (sep : Char) : List Char → List (List Char)
  | [] => [[]]
  | c :: rest =>
    if c = sep then [] :: splitOnChar sep rest
    else
      match splitOnChar sep rest with
      | [] => [[c]]
      | g :: gs => (c :: g) :: gs

/-- Python `str.isdigit` on ASCII strings: non-empty and all characters are
decimal digits (the test at line 132 of the source). -/
def isAllDigits (l : List Char) : Bool :=
  !l.isEmpty && l.all Char.isDigit

/-- The numeric value of a decimal-digit string, as read by Python `int` at
line 133.  Only applied to strings satisfying `isAllDigits`. -/
def digitsToNat (l : List Char) : ℕ :=
  l.foldl (fun n c => 10 * n + (c.toNat - 48)) 0

/-- Python `int(s)` at line 136: an optional sign followed by decimal digits;
`none` models a `ValueError` (which the caller's handler catches). -/
def parseInt? (l : List Char) : Option ℤ :=
  match l with
  | '-' :: rest => if isAllDigits rest then some (-(digitsToNat rest : ℤ)) else none
  | '+' :: rest => if isAllDigits rest then some (digitsToNat rest) else none
  | _ => if isAllDigits l then some (digitsToNat l) else none

/-- An unsigned decimal form `digits`, `digits.digits`, `digits.` or
`.digits`, with its rational value. -/
def parseUnsignedRat? (l : List Char) : Option ℚ :=
  match splitOnChar '.' l with
  | [a] => if isAllDigits a then some (digitsToNat a) else none
  | [a, b] =>
      if (isAllDigits a || a.isEmpty) && (isAllDigits b || b.isEmpty)
          && !(a.isEmpty && b.isEmpty) then
        some ((digitsToNat a : ℚ) + (digitsToNat b : ℚ) / ((10 : ℚ) ^ b.length))
      else none
  | _ => none

/-- Python `float(s)` at line 135, restricted to the plain decimal forms
ffprobe emits (optional sign, digits, optional fractional part); `none`
models a `ValueError` (caught by the handler at line 148). -/
def parseRat? (s : String) : Option ℚ :=
  match s.data with
  | '-' :: rest => (parseUnsignedRat? rest).map Neg.neg
  | '+' :: rest => parseUnsignedRat? rest
  | l => parseUnsignedRat? l

/-- Line 136: `rate_num, rate_den = map(int, video_stream.get('avg_frame_rate', '0/1').split('/'))`.
`none` models the `ValueError` raised when the split does not have exactly two
integer parts (caught by the handler at line 148). -/
def parseFrameRate? (s : String) : Option (ℤ × ℤ) :=
  match (splitOnChar '/' s.data).map parseInt? with
  | [some n, some d] => some (n, d)
  | _ => none

/-- Line 135's duration string: the stream's `duration` if the key is present,
else the container's `duration`, else `'0'`. -/
def durationStrOf (mi : MediaProbeResult) (vs : StreamInfo) : String :=
  match vs.duration with
  | some d => d
  | none => mi.format.duration.getD "0"

/-- Lines 135-138: the fallback frame count `ceil(duration * frame_rate)`,
with `frame_rate = rate_num / rate_den if rate_den != 0 else 0`.
`Except.error` models an exception escaping to the handler at line 148. -/
def fallbackFrames (mi : MediaProbeResult) (vs : StreamInfo) : Except Unit ℤ :=
  match parseRat? (durationStrOf mi vs), parseFrameRate? (vs.avg_frame_rate.getD "0/1") with
  | some dur, some (n, d) =>
      let frame_rate : ℚ := if d ≠ 0 then (n : ℚ) / (d : ℚ) else 0
      .ok ⌈dur * frame_rate⌉
  | _, _ => .error ()

/-- Line 132's condition `total_frames_str and total_frames_str.isdigit()`:
the `nb_frames` value is present, non-empty (Python truthiness) and all
digits.  (`isAllDigits` is false on the empty string.) -/
def usableNbFrames : Option String → Bool
  | some s => isAllDigits s.data
  | none => false

/-- Lines 131-138: the resolved total frame count — the explicit `nb_frames`
when usable, otherwise the duration-times-frame-rate fallback. -/
def resolvedFrames (mi : MediaProbeResult) (vs : StreamInfo) : Except Unit ℤ :=
  match vs.nb_frames with
  | some nf => if isAllDigits nf.data then .ok (digitsToNat nf.data) else fallbackFrames mi vs
  | none => fallbackFrames mi vs

/-- What `estimate_transcode_time` prints after its probe succeeded:
* `noVideoStream` — "Could not find a video stream to analyze." (line 128);
* `estimated h m s` — "Estimated time to transcode: HH:MM:SS" (line 144);
* `cannotDetermine` — "Could not determine video length to provide an
  estimate." (line 147);
* `couldNotAnalyze` — "Could not analyze video to provide an estimate: {e}",
  the catch-all handler at lines 148-149. -/
inductive EstimatePrint
  | noVideoStream
  | estimated (h m s : ℤ)
  | cannotDetermine
  | couldNotAnalyze
  deriving DecidableEq, Repr

/-- Line 126: the first stream whose `codec_type` is `video`. -/
def firstVideo (streams : List StreamInfo) : Option StreamInfo :=
  streams.find? (fun s => s.codec_type == "video")

/-- Lines 126-147 of the source, applied to a parsed probe report.
On the branch `total_frames > 0 and ESTIMATED_FPS > 0` the source executes
`mins, secs = divmod(estimated_seconds, 60)` (line 142) and then
`hours, mins = divod(mins, 60)` (line 143); `divod` is an undefined name, so
line 143 raises `NameError`, which the handler at line 148 catches — the
outcome of that branch is therefore `couldNotAnalyze`, and the `estimated`
print at line 144 is unreachable. -/
def estimateFromProbe (mi : MediaProbeResult) : EstimatePrint :=
  match firstVideo mi.streams with
  | none => .noVideoStream
  | some vs =>
    match resolvedFrames mi vs with
    | .error _ => .couldNotAnalyze
    | .ok tf =>
      if tf > 0 ∧ ESTIMATED_FPS > 0 then
        .couldNotAnalyze
      else .cannotDetermine

/-- Python `divmod(a, b)` on floats, modelled on exact rationals:
`(a // b, a % b)` where `//` is floor division and `a % b = a - b * (a // b)`. -/
def pyDivmod (a b : ℚ) : ℚ × ℚ :=
  ((⌊a / b⌋ : ℤ), a - b * (⌊a / b⌋ : ℤ))

/-- Modelled from the spec: the estimator branch at lines 140-145 with the
undefined name `divod` at line 143 read as the builtin `divmod` (the source
uses `divmod` one line above, and the spec prescribes formatting "via
successive floor-division by 60").  `estimated_seconds = total_frames / 85`
is a Python float, modelled as a rational;
`mins, secs = divmod(estimated_seconds, 60)` then
`hours, mins = divmod(mins, 60)`; Python `int()` truncates toward zero,
which on the non-negative values arising here is the floor. -/
def intendedPrint (tf : ℤ) : EstimatePrint :=
  .estimated ⌊(pyDivmod (pyDivmod ((tf : ℚ) / (ESTIMATED_FPS : ℚ)) 60).1 60).1⌋
             ⌊(pyDivmod (pyDivmod ((tf : ℚ) / (ESTIMATED_FPS : ℚ)) 60).1 60).2⌋
             ⌊(pyDivmod ((tf : ℚ) / (ESTIMATED_FPS : ℚ)) 60).2⌋

/-- Modelled from the spec: `estimateFromProbe` with the `divod` typo at
line 143 repaired, so that the branch with a positive frame count reaches the
`estimated` print of line 144. -/
def intendedEstimateFromProbe (mi : MediaProbeResult) : EstimatePrint :=
  match firstVideo mi.streams with
  | none => .noVideoStream
  | some vs =>
    match resolvedFrames mi vs with
    | .error _ => .couldNotAnalyze
    | .ok tf =>
      if tf > 0 ∧ ESTIMATED_FPS > 0 then
        intendedPrint tf
      else .cannotDetermine

/-- Python `f"{n:02d}"`: decimal rendering left-padded with `0` to width 2. -/
def pad2 (n : ℤ) : String :=
  if 0 ≤ n ∧ n < 10 then "0" ++ toString n else toString n

/-- The `HH:MM:SS` rendering of line 144:
`f"{int(hours):02d}:{int(mins):02d}:{int(secs):02d}"`. -/
def formatHMS (h m s : ℤ) : String :=
  pad2 h ++ ":" ++ pad2 m ++ ":" ++ pad2 s

/-! ## Command builder and control flow of `main` -/

/-- The parsed command line (the argparse result at line 67): `input` is
required, the rest optional.  Python truthiness tests (`if not args.output`,
`if args.subs`) are modelled by `truthy`. -/
structure Args where
  input : String
  output : Option String
  subs : Option String
  quiet : Bool
  less_noise : Bool
  deriving DecidableEq, Repr

/-- Python truthiness of an optional string: `None` and `""` are falsy. -/
def truthy : Option String → Bool
  | none => false
  | some s => s != ""

/-- Lines 99-102: the logging prefix — `-loglevel error` when quiet,
else `-stats_period 30` when less-noise, else nothing. -/
def logFlags (a : Args) : List String :=
  if a.quiet then ["-loglevel", "error"]
  else if a.less_noise then ["-stats_period", "30"]
  else []

/-- Line 106: the fixed encoding parameters. -/
def encoding_params : List String :=
  ["-c:v", "hevc_qsv", "-preset", "medium", "-global_quality", "24", "-c:a", "copy"]

/-- Lines 97-115: the ffmpeg argument list built in transcode mode. -/
def buildFfmpegCmd (a : Args) : List String :=
  ["ffmpeg"] ++ logFlags a
    ++ ["-hwaccel", "qsv", "-c:v", "h264_qsv", "-i", a.input]
    ++ (if truthy a.subs then
          ["-i", a.subs.getD "", "-map", "0:v:0", "-map", "0:a", "-map", "1:s",
           "-c:s", "copy", "-metadata:s:s:0", "language=eng"]
        else ["-map", "0:v:0", "-map", "0:a?"])
    ++ encoding_params ++ [a.output.getD ""]

/-- The stream-selection directives of an argument list: the arguments that
follow a `-map` flag, in order. -/
def mapTargets : List String → List String
  | [] => []
  | [_] => []
  | x :: y :: rest =>
    if x = "-map" then y :: mapTargets rest else mapTargets (y :: rest)

/-- The input sources of an argument list: the arguments that follow a `-i`
flag, in order. -/
def inputSources : List String → List String
  | [] => []
  | [_] => []
  | x :: y :: rest =>
    if x = "-i" then y :: inputSources rest else inputSources (y :: rest)

/-- The external tools the program shells out to. -/
inductive Tool
  | ffprobe
  | ffmpeg
  deriving DecidableEq, Repr

/-- Outcome of attempting to run an external tool: the binary was not on the
PATH (`FileNotFoundError`), or the process ran and exited with a code. -/
inductive ToolOutcome
  | notFound
  | exited (code : ℕ)
  deriving DecidableEq, Repr

/-- The environment an invocation runs in: which of the referenced files
exist, what each external-tool invocation would do, and what probe report the
estimator's ffprobe run would yield (`none` = unparsable output). -/
structure World where
  inputExists : Bool
  subsExists : Bool
  probeDisplay : ToolOutcome
  probeJson : ToolOutcome
  probeData : Option MediaProbeResult
  ffmpegRun : ToolOutcome
  deriving DecidableEq, Repr

/-- Lines 119-149, `estimate_transcode_time`: run ffprobe in JSON mode and
estimate.  Every exception — `FileNotFoundError`, `CalledProcessError`,
JSON/parse errors, the line-143 `NameError` — is caught by the
`except Exception` handler at line 148, so the function always returns a
print and never propagates a failure to the caller. -/
def estimate_transcode_time (w : World) : EstimatePrint :=
  match w.probeJson with
  | .notFound => .couldNotAnalyze
  | .exited c =>
    if c = 0 then
      match w.probeData with
      | none => .couldNotAnalyze
      | some mi => estimateFromProbe mi
    else .couldNotAnalyze

/-- The observable result of one program invocation: the process exit code,
the external-tool invocations attempted (in order), and the estimator's
print when the estimator ran. -/
structure RunResult where
  exitCode : ℕ
  tools : List Tool
  estPrint : Option EstimatePrint
  deriving DecidableEq, Repr

/-- Lines 34-117 and 151-166: the control flow of `main`, with
`run_ffmpeg_command` inlined for the transcode branch.
* Lines 39-41: `-v`/`--version` anywhere on the raw command line prints the
  history and exits 0 before argparse runs and before any file check.
* Lines 72-87 (info mode, output falsy): missing input exits 1 with no tool
  run; then ffprobe display — `FileNotFoundError` or nonzero exit exits 1;
  on success the estimator runs (attempting a second ffprobe) and the mode
  ends at `sys.exit(0)` regardless of the estimator's outcome.
* Lines 90-117 (transcode mode): missing input, then missing subtitle file
  (when a truthy subtitle path was given) exit 1 with no tool run; otherwise
  ffmpeg runs — `FileNotFoundError` or nonzero exit exits 1, else exit 0. -/
def runMain (argv : List String) (a : Args) (w : World) : RunResult :=
  if "-v" ∈ argv ∨ "--version" ∈ argv then
    { exitCode := 0, tools := [], estPrint := none }
  else if truthy a.output = false then
    if w.inputExists = false then
      { exitCode := 1, tools := [], estPrint := none }
    else
      match w.probeDisplay with
      | .notFound => { exitCode := 1, tools := [.ffprobe], estPrint := none }
      | .exited c =>
        if c = 0 then
          { exitCode := 0, tools := [.ffprobe, .ffprobe],
            estPrint := some (estimate_transcode_time w) }
        else { exitCode := 1, tools := [.ffprobe], estPrint := none }
  else
    if w.inputExists = false then
      { exitCode := 1, tools := [], estPrint := none }
    else if truthy a.subs && !w.subsExists then
      { exitCode := 1, tools := [], estPrint := none }
    else
      match w.ffmpegRun with
      | .notFound => { exitCode := 1, tools := [.ffmpeg], estPrint := none }
      | .exited c =>
        { exitCode := if c = 0 then 0 else 1, tools := [.ffmpeg], estPrint := none }

/-! ## Helper lemmas on the directive scanners -/

theorem mapTargets_cons_of_ne (x : String) (l : List String) (h : x ≠ "-map") :
    mapTargets (x :: l) = mapTargets l := by
  cases l with
  | nil => rfl
  | cons y rest => simp [mapTargets, h]

theorem mapTargets_cons_map (y : String) (l : List String) :
    mapTargets ("-map" :: y :: l) = y :: mapTargets l := by
  simp [mapTargets]

theorem mapTargets_append_of_ne (l₁ l₂ : List String) (h : ∀ x ∈ l₁, x ≠ "-map") :
    mapTargets (l₁ ++ l₂) = mapTargets l₂ := by
  induction l₁ with
  | nil => rfl
  | cons x rest ih =>
    rw [List.cons_append, mapTargets_cons_of_ne x _ (h x (by simp)),
        ih (fun y hy => h y (by simp [hy]))]

theorem inputSources_cons_of_ne (x : String) (l : List String) (h : x ≠ "-i") :
    inputSources (x :: l) = inputSources l := by
  cases l with
  | nil => rfl
  | cons y rest => simp [inputSources, h]

theorem inputSources_cons_i (y : String) (l : List String) :
    inputSources ("-i" :: y :: l) = y :: inputSources l := by
  simp [inputSources]

theorem inputSources_append_of_ne (l₁ l₂ : List String) (h : ∀ x ∈ l₁, x ≠ "-i") :
    inputSources (l₁ ++ l₂) = inputSources l₂ := by
  induction l₁ with
  | nil => rfl
  | cons x rest ih =>
    rw [List.cons_append, inputSources_cons_of_ne x _ (h x (by simp)),
        ih (fun y hy => h y (by simp [hy]))]

theorem mem_logFlags (a : Args) (x : String) (hx : x ∈ logFlags a) :
    x = "-loglevel" ∨ x = "error" ∨ x = "-stats_period" ∨ x = "30" := by
  unfold logFlags at hx
  by_cases hq : a.quiet
  · simp [hq] at hx
    tauto
  · by_cases hl : a.less_noise
    · simp [hq, hl] at hx
      tauto
    · simp [hq, hl] at hx

theorem logFlags_not_map (a : Args) : ∀ x ∈ logFlags a, x ≠ "-map" := by
  intro x hx
  rcases mem_logFlags a x hx with h | h | h | h <;> subst h <;> decide

theorem logFlags_not_i (a : Args) : ∀ x ∈ logFlags a, x ≠ "-i" := by
  intro x hx
  rcases mem_logFlags a x hx with h | h | h | h <;> subst h <;> decide

/-! ## Concrete inputs used in the claim checks -/

/-- A probe report whose single video stream carries `nb_frames = "2550"`
(the spec's `movie.mp4` example). -/
def probe2550 : MediaProbeResult :=
  { streams := [{ codec_type := "video", nb_frames := some "2550",
                  duration := none, avg_frame_rate := none }],
    format := { duration := some "30.0" } }

/-- C1: the spec claims that an explicit decimal frame count `f` with the
constant 85 makes the info-mode estimator print `f/85` seconds formatted as
zero-padded `HH:MM:SS` by successive floor-division by 60 — in particular
`nb_frames = 2550` prints `00:00:30`.  The code is wrong: line 143 reads
`hours, mins = divod(mins, 60)` and `divod` is an undefined name, so the
branch raises `NameError`, the handler at line 148 catches it, and the
"Could not analyze" message is printed instead; with the one-letter typo
repaired to `divmod`, the estimator prints exactly the claimed `00:00:30`. -/
theorem estimate_2550_divod_bug :
    estimateFromProbe probe2550 = .couldNotAnalyze ∧
    estimateFromProbe probe2550 ≠ .estimated 0 0 30 ∧
    intendedEstimateFromProbe probe2550 = .estimated 0 0 30 ∧
    formatHMS 0 0 30 = "00:00:30" := by
  refine ⟨by decide, by decide, ?_, by decide⟩
  have h : intendedEstimateFromProbe probe2550 = intendedPrint 2550 := by rfl
  rw [h]
  unfold intendedPrint pyDivmod
  norm_num [ESTIMATED_FPS]

/-- A video stream with no `nb_frames`, duration `10` seconds and frame rate
`24/1`. -/
def vsFps : StreamInfo :=
  { codec_type := "video", nb_frames := none,
    duration := some "10", avg_frame_rate := some "24/1" }

/-- A probe report whose single video stream is `vsFps`. -/
def miFps : MediaProbeResult :=
  { streams := [vsFps], format := { duration := none } }

/-- A video stream with no `nb_frames` and frame rate `24/0`
(zero denominator). -/
def vsZeroDen : StreamInfo :=
  { codec_type := "video", nb_frames := none,
    duration := some "10", avg_frame_rate := some "24/0" }

/-- A probe report whose single video stream is `vsZeroDen`. -/
def miZeroDen : MediaProbeResult :=
  { streams := [vsZeroDen], format := { duration := none } }

/-- C2: with no usable explicit frame count, the estimator computes
`frames = ceil(d * n/m)` where `d` parses the stream duration if present,
else the container duration, else `"0"` (`durationStrOf`), and `n/m` is the
parsed `numerator/denominator` frame-rate string; when `m = 0` the frame
rate resolves to 0, the frame count resolves to 0, and the estimator
reports the cannot-estimate message instead of dividing. -/
theorem fallback_frames_duration_times_rate
    (mi : MediaProbeResult) (vs : StreamInfo) (d : ℚ) (n m : ℤ)
    (hnf : usableNbFrames vs.nb_frames = false)
    (hd : parseRat? (durationStrOf mi vs) = some d)
    (hr : parseFrameRate? (vs.avg_frame_rate.getD "0/1") = some (n, m)) :
    (m ≠ 0 → resolvedFrames mi vs = .ok ⌈d * ((n : ℚ) / (m : ℚ))⌉) ∧
    (m = 0 → resolvedFrames mi vs = .ok 0 ∧
      (firstVideo mi.streams = some vs → estimateFromProbe mi = .cannotDetermine)) := by
  have hres : resolvedFrames mi vs = fallbackFrames mi vs := by
    unfold resolvedFrames
    cases hnb : vs.nb_frames with
    | none => rfl
    | some nf =>
      rw [hnb] at hnf
      simp only [usableNbFrames] at hnf
      simp [hnf]
  have hfb : fallbackFrames mi vs =
      .ok ⌈d * (if m ≠ 0 then (n : ℚ) / (m : ℚ) else 0)⌉ := by
    unfold fallbackFrames
    rw [hd, hr]
  constructor
  · intro hm
    rw [hres, hfb, if_pos hm]
  · intro hm
    have h0 : fallbackFrames mi vs = .ok 0 := by
      rw [hfb, if_neg (by simp [hm]), mul_zero, Int.ceil_zero]
    refine ⟨hres.trans h0, fun hfv => ?_⟩
    unfold estimateFromProbe
    rw [hfv]
    simp only [hres.trans h0]
    norm_num

/-- Closed check of `fallback_frames_duration_times_rate` on two concrete
reports: frame rate `24/1` over duration 10 gives `ceil(10 * 24/1)` frames,
and frame rate `24/0` gives 0 frames and the cannot-estimate report. -/
theorem fallback_frames_duration_times_rate_witness :
    resolvedFrames miFps vsFps = .ok ⌈(10 : ℚ) * ((24 : ℚ) / (1 : ℚ))⌉ ∧
    resolvedFrames miZeroDen vsZeroDen = .ok 0 ∧
    estimateFromProbe miZeroDen = .cannotDetermine := by
  refine ⟨?_, ?_, ?_⟩
  · exact (fallback_frames_duration_times_rate miFps vsFps 10 24 1
      (by decide) (by decide) (by decide)).1 (by decide)
  · exact ((fallback_frames_duration_times_rate miZeroDen vsZeroDen 10 24 0
      (by decide) (by decide) (by decide)).2 rfl).1
  · exact ((fallback_frames_duration_times_rate miZeroDen vsZeroDen 10 24 0
      (by decide) (by decide) (by decide)).2 rfl).2 (by decide)

/-- A video stream whose `nb_frames` string is the non-numeric `"N/A"`. -/
def vsNA : StreamInfo :=
  { codec_type := "video", nb_frames := some "N/A",
    duration := some "10", avg_frame_rate := some "24/1" }

/-- A probe report whose single video stream is `vsNA`. -/
def miNA : MediaProbeResult :=
  { streams := [vsNA], format := { duration := none } }

/-- C10: when the first video stream's `nb_frames` field is present but is
not a string consisting entirely of decimal digits, the estimator silently
ignores it and falls through to the duration-times-frame-rate computation
(it neither uses the value nor raises). -/
theorem nonnumeric_nbframes_falls_through
    (mi : MediaProbeResult) (vs : StreamInfo) (str : String)
    (hnb : vs.nb_frames = some str) (hnd : isAllDigits str.data = false) :
    resolvedFrames mi vs = fallbackFrames mi vs := by
  unfold resolvedFrames
  rw [hnb]
  simp [hnd]

/-- Closed check of `nonnumeric_nbframes_falls_through` at `nb_frames =
"N/A"`: the estimator uses the duration-times-rate fallback, which here
yields `ceil(10 * 24) = 240` frames. -/
theorem nonnumeric_nbframes_falls_through_witness :
    resolvedFrames miNA vsNA = fallbackFrames miNA vsNA ∧
    fallbackFrames miNA vsNA = .ok 240 := by
  refine ⟨nonnumeric_nbframes_falls_through miNA vsNA "N/A" (by decide) (by decide), ?_⟩
  unfold fallbackFrames
  rw [show parseRat? (durationStrOf miNA vsNA) = some 10 from by decide,
      show parseFrameRate? (vsNA.avg_frame_rate.getD "0/1") = some (24, 1) from by decide]
  norm_num

theorem inputSources_single (x : String) : inputSources [x] = [] := rfl

theorem mapTargets_single (x : String) : mapTargets [x] = [] := rfl

theorem getLast?_cons_append_concat (x : String) (l₁ l₂ : List String) (o : String) :
    (x :: (l₁ ++ (l₂ ++ [o]))).getLast? = some o := by
  rw [← List.cons_append, ← List.append_assoc, List.getLast?_append_cons]
  rfl

theorem not_mem_logFlags (a : Args) (x : String)
    (h1 : x ≠ "-loglevel") (h2 : x ≠ "error")
    (h3 : x ≠ "-stats_period") (h4 : x ≠ "30") : x ∉ logFlags a := by
  intro hx
  rcases mem_logFlags a x hx with h | h | h | h
  · exact h1 h
  · exact h2 h
  · exact h3 h
  · exact h4 h

/-- The exact argument list built in transcode mode when a (truthy) subtitle
path is present. -/
theorem buildFfmpegCmd_subs (a : Args) (s out : String)
    (hs : a.subs = some s) (hsne : s ≠ "") (ho : a.output = some out) :
    buildFfmpegCmd a =
      "ffmpeg" :: (logFlags a ++
        ("-hwaccel" :: "qsv" :: "-c:v" :: "h264_qsv" :: "-i" :: a.input ::
         "-i" :: s :: "-map" :: "0:v:0" :: "-map" :: "0:a" :: "-map" :: "1:s" ::
         "-c:s" :: "copy" :: "-metadata:s:s:0" :: "language=eng" ::
         "-c:v" :: "hevc_qsv" :: "-preset" :: "medium" ::
         "-global_quality" :: "24" :: "-c:a" :: "copy" :: [out])) := by
  unfold buildFfmpegCmd encoding_params
  rw [hs, ho]
  simp [truthy, hsne]

/-- The exact argument list built in transcode mode without a subtitle path. -/
theorem buildFfmpegCmd_nosubs (a : Args) (out : String)
    (hs : truthy a.subs = false) (ho : a.output = some out) :
    buildFfmpegCmd a =
      "ffmpeg" :: (logFlags a ++
        ("-hwaccel" :: "qsv" :: "-c:v" :: "h264_qsv" :: "-i" :: a.input ::
         "-map" :: "0:v:0" :: "-map" :: "0:a?" ::
         "-c:v" :: "hevc_qsv" :: "-preset" :: "medium" ::
         "-global_quality" :: "24" :: "-c:a" :: "copy" :: [out])) := by
  unfold buildFfmpegCmd encoding_params
  rw [hs, ho]
  simp

/-- C3: with a subtitle path supplied, the built command adds the subtitle
file as input source 1 (the input sources are exactly `[input, subs]`), its
stream-selection directives are exactly video stream 0 of source 0, all
audio streams of source 0 and all subtitle streams of source 1 (`mapTargets
= ["0:v:0", "0:a", "1:s"]`), it copies subtitle streams verbatim and tags
the first subtitle output stream with language metadata `eng`. -/
theorem cmd_with_subs_stream_selection
    (a : Args) (s out : String)
    (hs : a.subs = some s) (hsne : s ≠ "") (ho : a.output = some out)
    (hin : a.input ≠ "-map") (hsm : s ≠ "-map") :
    inputSources (buildFfmpegCmd a) = [a.input, s] ∧
    mapTargets (buildFfmpegCmd a) = ["0:v:0", "0:a", "1:s"] ∧
    (∃ p q, buildFfmpegCmd a =
      p ++ ["-map", "0:v:0", "-map", "0:a", "-map", "1:s",
            "-c:s", "copy", "-metadata:s:s:0", "language=eng"] ++ q) := by
  have hcmd := buildFfmpegCmd_subs a s out hs hsne ho
  refine ⟨?_, ?_, ?_⟩
  · rw [hcmd, inputSources_cons_of_ne _ _ (by decide),
        inputSources_append_of_ne _ _ (logFlags_not_i a),
        inputSources_cons_of_ne _ _ (by decide),
        inputSources_cons_of_ne _ _ (by decide),
        inputSources_cons_of_ne _ _ (by decide),
        inputSources_cons_of_ne _ _ (by decide),
        inputSources_cons_i, inputSources_cons_i,
        inputSources_cons_of_ne _ _ (by decide),
        inputSources_cons_of_ne _ _ (by decide),
        inputSources_cons_of_ne _ _ (by decide),
        inputSources_cons_of_ne _ _ (by decide),
        inputSources_cons_of_ne _ _ (by decide),
        inputSources_cons_of_ne _ _ (by decide),
        inputSources_cons_of_ne _ _ (by decide),
        inputSources_cons_of_ne _ _ (by decide),
        inputSources_cons_of_ne _ _ (by decide),
        inputSources_cons_of_ne _ _ (by decide),
        inputSources_cons_of_ne _ _ (by decide),
        inputSources_cons_of_ne _ _ (by decide),
        inputSources_cons_of_ne _ _ (by decide),
        inputSources_cons_of_ne _ _ (by decide),
        inputSources_cons_of_ne _ _ (by decide),
        inputSources_cons_of_ne _ _ (by decide),
        inputSources_cons_of_ne _ _ (by decide),
        inputSources_cons_of_ne _ _ (by decide),
        inputSources_single]
  · rw [hcmd, mapTargets_cons_of_ne _ _ (by decide),
        mapTargets_append_of_ne _ _ (logFlags_not_map a),
        mapTargets_cons_of_ne _ _ (by decide),
        mapTargets_cons_of_ne _ _ (by decide),
        mapTargets_cons_of_ne _ _ (by decide),
        mapTargets_cons_of_ne _ _ (by decide),
        mapTargets_cons_of_ne _ _ (by decide),
        mapTargets_cons_of_ne _ _ hin,
        mapTargets_cons_of_ne _ _ (by decide),
        mapTargets_cons_of_ne _ _ hsm,
        mapTargets_cons_map, mapTargets_cons_map, mapTargets_cons_map,
        mapTargets_cons_of_ne _ _ (by decide),
        mapTargets_cons_of_ne _ _ (by decide),
        mapTargets_cons_of_ne _ _ (by decide),
        mapTargets_cons_of_ne _ _ (by decide),
        mapTargets_cons_of_ne _ _ (by decide),
        mapTargets_cons_of_ne _ _ (by decide),
        mapTargets_cons_of_ne _ _ (by decide),
        mapTargets_cons_of_ne _ _ (by decide),
        mapTargets_cons_of_ne _ _ (by decide),
        mapTargets_cons_of_ne _ _ (by decide),
        mapTargets_cons_of_ne _ _ (by decide),
        mapTargets_cons_of_ne _ _ (by decide),
        mapTargets_single]
  · refine ⟨"ffmpeg" :: (logFlags a ++
        ["-hwaccel", "qsv", "-c:v", "h264_qsv", "-i", a.input, "-i", s]),
      ["-c:v", "hevc_qsv", "-preset", "medium",
       "-global_quality", "24", "-c:a", "copy", out], ?_⟩
    rw [hcmd]
    simp

/-- A transcode request embedding a subtitle file. -/
def argsSubs : Args :=
  { input := "movie.mp4", output := some "movie.mkv",
    subs := some "subs.srt", quiet := false, less_noise := false }

/-- Closed check of `cmd_with_subs_stream_selection` on a concrete request. -/
theorem cmd_with_subs_stream_selection_witness :
    inputSources (buildFfmpegCmd argsSubs) = ["movie.mp4", "subs.srt"] ∧
    mapTargets (buildFfmpegCmd argsSubs) = ["0:v:0", "0:a", "1:s"] ∧
    (∃ p q, buildFfmpegCmd argsSubs =
      p ++ ["-map", "0:v:0", "-map", "0:a", "-map", "1:s",
            "-c:s", "copy", "-metadata:s:s:0", "language=eng"] ++ q) :=
  cmd_with_subs_stream_selection argsSubs "subs.srt" "movie.mkv"
    rfl (by decide) rfl (by decide) (by decide)

/-- C4: without a subtitle path, the built command contains the consecutive
mapping arguments `-map 0:v:0 -map 0:a?` (optional audio) followed by the
encoding parameters and the output path; its stream-selection directives are
exactly those two; it contains none of the subtitle directives `-c:s`,
`-metadata:s:s:0`, `1:s`; and the output path is its final argument. -/
theorem cmd_without_subs_mapping
    (a : Args) (out : String)
    (hs : truthy a.subs = false) (ho : a.output = some out)
    (hin : a.input ∉ (["-map", "-c:s", "-metadata:s:s:0", "1:s"] : List String))
    (hout : out ∉ (["-c:s", "-metadata:s:s:0", "1:s"] : List String)) :
    (∃ p, buildFfmpegCmd a =
      p ++ ["-map", "0:v:0", "-map", "0:a?"] ++ encoding_params ++ [out]) ∧
    mapTargets (buildFfmpegCmd a) = ["0:v:0", "0:a?"] ∧
    "-c:s" ∉ buildFfmpegCmd a ∧
    "-metadata:s:s:0" ∉ buildFfmpegCmd a ∧
    "1:s" ∉ buildFfmpegCmd a ∧
    (buildFfmpegCmd a).getLast? = some out := by
  have hcmd := buildFfmpegCmd_nosubs a out hs ho
  simp only [List.mem_cons, List.not_mem_nil, not_or] at hin hout
  obtain ⟨hin1, hin2, hin3, hin4, -⟩ := hin
  obtain ⟨hout1, hout2, hout3, -⟩ := hout
  refine ⟨?_, ?_, ?_, ?_, ?_, ?_⟩
  · refine ⟨"ffmpeg" :: (logFlags a ++
        ["-hwaccel", "qsv", "-c:v", "h264_qsv", "-i", a.input]), ?_⟩
    rw [hcmd]
    simp [encoding_params]
  · rw [hcmd, mapTargets_cons_of_ne _ _ (by decide),
        mapTargets_append_of_ne _ _ (logFlags_not_map a),
        mapTargets_cons_of_ne _ _ (by decide),
        mapTargets_cons_of_ne _ _ (by decide),
        mapTargets_cons_of_ne _ _ (by decide),
        mapTargets_cons_of_ne _ _ (by decide),
        mapTargets_cons_of_ne _ _ (by decide),
        mapTargets_cons_of_ne _ _ hin1,
        mapTargets_cons_map, mapTargets_cons_map,
        mapTargets_cons_of_ne _ _ (by decide),
        mapTargets_cons_of_ne _ _ (by decide),
        mapTargets_cons_of_ne _ _ (by decide),
        mapTargets_cons_of_ne _ _ (by decide),
        mapTargets_cons_of_ne _ _ (by decide),
        mapTargets_cons_of_ne _ _ (by decide),
        mapTargets_cons_of_ne _ _ (by decide),
        mapTargets_cons_of_ne _ _ (by decide),
        mapTargets_single]
  · rw [hcmd]
    intro hmem
    simp at hmem
    rcases hmem with hm | hm | hm
    · exact not_mem_logFlags a _ (by decide) (by decide) (by decide) (by decide) hm
    · exact hin2 hm.symm
    · exact hout1 hm.symm
  · rw [hcmd]
    intro hmem
    simp at hmem
    rcases hmem with hm | hm | hm
    · exact not_mem_logFlags a _ (by decide) (by decide) (by decide) (by decide) hm
    · exact hin3 hm.symm
    · exact hout2 hm.symm
  · rw [hcmd]
    intro hmem
    simp at hmem
    rcases hmem with hm | hm | hm
    · exact not_mem_logFlags a _ (by decide) (by decide) (by decide) (by decide) hm
    · exact hin4 hm.symm
    · exact hout3 hm.symm
  · rw [hcmd]
    exact getLast?_cons_append_concat "ffmpeg" (logFlags a)
      ["-hwaccel", "qsv", "-c:v", "h264_qsv", "-i", a.input, "-map", "0:v:0",
       "-map", "0:a?", "-c:v", "hevc_qsv", "-preset", "medium",
       "-global_quality", "24", "-c:a", "copy"] out

/-- A transcode request with no subtitle path (the spec's `movie.mkv`
example). -/
def argsNoSubs : Args :=
  { input := "movie.mp4", output := some "movie.mkv",
    subs := none, quiet := false, less_noise := false }

/-- Closed check of `cmd_without_subs_mapping` on a concrete request. -/
theorem cmd_without_subs_mapping_witness :
    (∃ p, buildFfmpegCmd argsNoSubs =
      p ++ ["-map", "0:v:0", "-map", "0:a?"] ++ encoding_params ++ ["movie.mkv"]) ∧
    mapTargets (buildFfmpegCmd argsNoSubs) = ["0:v:0", "0:a?"] ∧
    "-c:s" ∉ buildFfmpegCmd argsNoSubs ∧
    "-metadata:s:s:0" ∉ buildFfmpegCmd argsNoSubs ∧
    "1:s" ∉ buildFfmpegCmd argsNoSubs ∧
    (buildFfmpegCmd argsNoSubs).getLast? = some "movie.mkv" :=
  cmd_without_subs_mapping argsNoSubs "movie.mkv" rfl rfl (by decide) (by decide)

/-- C5: with the quiet flag set the built command carries the errors-only
logging directive `-loglevel error` and no `-stats_period` periodic-progress
directive, even when the reduced-progress flag is also set; with only
reduced-progress set it carries `-stats_period 30` instead. -/
theorem quiet_overrides_less_noise_logging
    (a : Args)
    (hpaths : "-stats_period" ∉ [a.input, a.subs.getD "", a.output.getD ""]) :
    (a.quiet = true →
      (∃ p q, buildFfmpegCmd a = p ++ ["-loglevel", "error"] ++ q) ∧
      "-stats_period" ∉ buildFfmpegCmd a) ∧
    (a.quiet = false → a.less_noise = true →
      ∃ p q, buildFfmpegCmd a = p ++ ["-stats_period", "30"] ++ q) := by
  simp only [List.mem_cons, List.not_mem_nil, not_or] at hpaths
  obtain ⟨h1, h2, h3, -⟩ := hpaths
  constructor
  · intro hq
    have hlog : logFlags a = ["-loglevel", "error"] := by simp [logFlags, hq]
    constructor
    · refine ⟨["ffmpeg"],
        ["-hwaccel", "qsv", "-c:v", "h264_qsv", "-i", a.input]
          ++ (if truthy a.subs then
                ["-i", a.subs.getD "", "-map", "0:v:0", "-map", "0:a", "-map", "1:s",
                 "-c:s", "copy", "-metadata:s:s:0", "language=eng"]
              else ["-map", "0:v:0", "-map", "0:a?"])
          ++ encoding_params ++ [a.output.getD ""], ?_⟩
      unfold buildFfmpegCmd
      rw [hlog]
      simp
    · unfold buildFfmpegCmd
      rw [hlog]
      intro hmem
      by_cases hsub : truthy a.subs
      · simp [hsub, encoding_params] at hmem
        rcases hmem with hm | hm | hm
        · exact h1 hm
        · exact h2 hm
        · exact h3 hm
      · simp [hsub, encoding_params] at hmem
        rcases hmem with hm | hm
        · exact h1 hm
        · exact h3 hm
  · intro hq hl
    have hlog : logFlags a = ["-stats_period", "30"] := by simp [logFlags, hq, hl]
    refine ⟨["ffmpeg"],
      ["-hwaccel", "qsv", "-c:v", "h264_qsv", "-i", a.input]
        ++ (if truthy a.subs then
              ["-i", a.subs.getD "", "-map", "0:v:0", "-map", "0:a", "-map", "1:s",
               "-c:s", "copy", "-metadata:s:s:0", "language=eng"]
            else ["-map", "0:v:0", "-map", "0:a?"])
        ++ encoding_params ++ [a.output.getD ""], ?_⟩
    unfold buildFfmpegCmd
    rw [hlog]
    simp

/-- A transcode request with both the quiet and the reduced-progress flag. -/
def argsQuietBoth : Args :=
  { input := "movie.mp4", output := some "movie.mkv",
    subs := none, quiet := true, less_noise := true }

/-- A transcode request with only the reduced-progress flag. -/
def argsLessNoise : Args :=
  { input := "movie.mp4", output := some "movie.mkv",
    subs := none, quiet := false, less_noise := true }

/-- Closed check of `quiet_overrides_less_noise_logging`: quiet plus
reduced-progress yields `-loglevel error` and no `-stats_period`; only
reduced-progress yields `-stats_period 30`. -/
theorem quiet_overrides_less_noise_logging_witness :
    ((∃ p q, buildFfmpegCmd argsQuietBoth = p ++ ["-loglevel", "error"] ++ q) ∧
      "-stats_period" ∉ buildFfmpegCmd argsQuietBoth) ∧
    (∃ p q, buildFfmpegCmd argsLessNoise = p ++ ["-stats_period", "30"] ++ q) :=
  ⟨(quiet_overrides_less_noise_logging argsQuietBoth (by decide)).1 rfl,
   (quiet_overrides_less_noise_logging argsLessNoise (by decide)).2 rfl rfl⟩

/-! ## Control-flow claims -/

/-- An info-mode request (no output path). -/
def argsInfo : Args :=
  { input := "movie.mp4", output := none,
    subs := none, quiet := false, less_noise := false }

/-- A command line with no version flag. -/
def argvPlain : List String := ["hvec.py", "-i", "movie.mp4"]

/-- An environment in which every file exists and every tool succeeds. -/
def wOk : World :=
  { inputExists := true, subsExists := true, probeDisplay := .exited 0,
    probeJson := .exited 0, probeData := some probe2550, ffmpegRun := .exited 0 }

/-- `wOk` with the input file missing. -/
def wNoInput : World := { wOk with inputExists := false }

/-- `wOk` with the subtitle file missing. -/
def wNoSubsFile : World := { wOk with subsExists := false }

/-- `wOk` with the ffprobe binary missing. -/
def wProbeMissing : World := { wOk with probeDisplay := .notFound }

/-- `wOk` with the display ffprobe run failing (exit 2). -/
def wProbeFail : World := { wOk with probeDisplay := .exited 2 }

/-- `wOk` with the ffmpeg binary missing. -/
def wToolMissing : World := { wOk with ffmpegRun := .notFound }

/-- `wOk` with the ffmpeg run failing (exit 3). -/
def wToolFail : World := { wOk with ffmpegRun := .exited 3 }

/-- `wOk` with the estimator's JSON ffprobe run failing and its output
unparsable. -/
def wEstFail : World := { wOk with probeJson := .exited 1, probeData := none }

/-- C6: when the input file does not exist (in either mode), or the supplied
(truthy) subtitle path does not exist (transcode mode), the program reports
the error and exits with code 1 before invoking any external tool. -/
theorem missing_files_exit_before_tools
    (argv : List String) (a : Args) (w : World)
    (hv : ¬("-v" ∈ argv ∨ "--version" ∈ argv)) :
    (w.inputExists = false →
      runMain argv a w = { exitCode := 1, tools := [], estPrint := none }) ∧
    (truthy a.output = true → truthy a.subs = true → w.subsExists = false →
      runMain argv a w = { exitCode := 1, tools := [], estPrint := none }) := by
  constructor
  · intro hi
    unfold runMain
    rw [if_neg hv]
    by_cases ho : truthy a.output
    · simp [ho, hi]
    · simp [ho, hi]
  · intro ho hsubs hse
    unfold runMain
    rw [if_neg hv]
    by_cases hi : w.inputExists
    · simp [ho, hi, hsubs, hse]
    · simp [ho, hi]

/-- Closed check of `missing_files_exit_before_tools` in transcode mode with
a missing input, transcode mode with a missing subtitle file, and info mode
with a missing input. -/
theorem missing_files_exit_before_tools_witness :
    runMain argvPlain argsNoSubs wNoInput = { exitCode := 1, tools := [], estPrint := none } ∧
    runMain argvPlain argsSubs wNoSubsFile = { exitCode := 1, tools := [], estPrint := none } ∧
    runMain argvPlain argsInfo wNoInput = { exitCode := 1, tools := [], estPrint := none } :=
  ⟨(missing_files_exit_before_tools argvPlain argsNoSubs wNoInput (by decide)).1 rfl,
   (missing_files_exit_before_tools argvPlain argsSubs wNoSubsFile (by decide)).2
     (by decide) (by decide) rfl,
   (missing_files_exit_before_tools argvPlain argsInfo wNoInput (by decide)).1 rfl⟩

/-- C7: a command line containing `-v` or `--version` prints the version
history and exits 0 immediately — the result does not depend on the parsed
arguments or on the environment (no validation, no tool invocation). -/
theorem version_flag_short_circuits
    (argv : List String) (a : Args) (w : World)
    (hv : "-v" ∈ argv ∨ "--version" ∈ argv) :
    runMain argv a w = { exitCode := 0, tools := [], estPrint := none } := by
  unfold runMain
  rw [if_pos hv]

/-- Closed check of `version_flag_short_circuits`: `-v` on the command line
exits 0 with no tool run even though the input file is missing. -/
theorem version_flag_short_circuits_witness :
    runMain ["hvec.py", "-v"] argsNoSubs wNoInput =
      { exitCode := 0, tools := [], estPrint := none } :=
  version_flag_short_circuits ["hvec.py", "-v"] argsNoSubs wNoInput (Or.inl (by decide))

/-- C8: with the precondition checks passed, the exit code is 0 on success
and 1 when an external tool binary cannot be located or exits non-zero: in
info mode for the ffprobe display run, in transcode mode for the ffmpeg
run. -/
theorem exit_codes_tool_outcomes
    (argv : List String) (a : Args) (w : World)
    (hv : ¬("-v" ∈ argv ∨ "--version" ∈ argv))
    (hi : w.inputExists = true) :
    (truthy a.output = false →
      (w.probeDisplay = .notFound → (runMain argv a w).exitCode = 1) ∧
      (∀ c, w.probeDisplay = .exited c →
        (runMain argv a w).exitCode = if c = 0 then 0 else 1)) ∧
    (truthy a.output = true → (truthy a.subs = false ∨ w.subsExists = true) →
      (w.ffmpegRun = .notFound → (runMain argv a w).exitCode = 1) ∧
      (∀ c, w.ffmpegRun = .exited c →
        (runMain argv a w).exitCode = if c = 0 then 0 else 1)) := by
  constructor
  · intro ho
    constructor
    · intro hp
      unfold runMain
      rw [if_neg hv]
      simp [ho, hi, hp]
    · intro c hp
      unfold runMain
      rw [if_neg hv]
      by_cases hc : c = 0 <;> simp [ho, hi, hp, hc]
  · intro ho hsv
    have hguard : (truthy a.subs && !w.subsExists) = false := by
      rcases hsv with h | h <;> simp [h]
    constructor
    · intro hf
      unfold runMain
      rw [if_neg hv]
      simp [ho, hi, hguard, hf]
    · intro c hf
      unfold runMain
      rw [if_neg hv]
      by_cases hc : c = 0 <;> simp [ho, hi, hguard, hf, hc]

/-- Closed check of `exit_codes_tool_outcomes` over six environments:
info mode with ffprobe missing / failing / succeeding, and transcode mode
with ffmpeg missing / failing / succeeding. -/
theorem exit_codes_tool_outcomes_witness :
    (runMain argvPlain argsInfo wProbeMissing).exitCode = 1 ∧
    (runMain argvPlain argsInfo wProbeFail).exitCode = 1 ∧
    (runMain argvPlain argsInfo wOk).exitCode = 0 ∧
    (runMain argvPlain argsNoSubs wToolMissing).exitCode = 1 ∧
    (runMain argvPlain argsNoSubs wToolFail).exitCode = 1 ∧
    (runMain argvPlain argsNoSubs wOk).exitCode = 0 := by
  refine ⟨?_, ?_, ?_, ?_, ?_, ?_⟩
  · exact ((exit_codes_tool_outcomes argvPlain argsInfo wProbeMissing
      (by decide) rfl).1 rfl).1 rfl
  · simpa using ((exit_codes_tool_outcomes argvPlain argsInfo wProbeFail
      (by decide) rfl).1 rfl).2 2 rfl
  · simpa using ((exit_codes_tool_outcomes argvPlain argsInfo wOk
      (by decide) rfl).1 rfl).2 0 rfl
  · exact ((exit_codes_tool_outcomes argvPlain argsNoSubs wToolMissing
      (by decide) rfl).2 (by decide) (Or.inl (by decide))).1 rfl
  · simpa using ((exit_codes_tool_outcomes argvPlain argsNoSubs wToolFail
      (by decide) rfl).2 (by decide) (Or.inl (by decide))).2 3 rfl
  · simpa using ((exit_codes_tool_outcomes argvPlain argsNoSubs wOk
      (by decide) rfl).2 (by decide) (Or.inl (by decide))).2 0 rfl

/-- C9: once the info-mode ffprobe display run has succeeded, the estimator
always produces a report (every failure inside it, including the estimator's
own ffprobe run going wrong, unparsable output and unexpected exceptions, is
caught and turned into a printed message) and info mode exits with code 0
regardless. -/
theorem estimator_failures_never_abort_info_mode
    (argv : List String) (a : Args) (w : World)
    (hv : ¬("-v" ∈ argv ∨ "--version" ∈ argv))
    (ho : truthy a.output = false)
    (hi : w.inputExists = true)
    (hp : w.probeDisplay = .exited 0) :
    runMain argv a w =
      { exitCode := 0, tools := [.ffprobe, .ffprobe],
        estPrint := some (estimate_transcode_time w) } ∧
    (w.probeJson = .notFound → estimate_transcode_time w = .couldNotAnalyze) ∧
    (∀ c, c ≠ 0 → w.probeJson = .exited c →
      estimate_transcode_time w = .couldNotAnalyze) ∧
    (w.probeJson = .exited 0 → w.probeData = none →
      estimate_transcode_time w = .couldNotAnalyze) := by
  refine ⟨?_, ?_, ?_, ?_⟩
  · unfold runMain
    rw [if_neg hv]
    simp [ho, hi, hp]
  · intro hj
    unfold estimate_transcode_time
    rw [hj]
  · intro c hc hj
    unfold estimate_transcode_time
    rw [hj]
    simp [hc]
  · intro hj hd
    unfold estimate_transcode_time
    rw [hj, hd]
    rfl

/-- Closed check of `estimator_failures_never_abort_info_mode`: the
estimator's own ffprobe run exits 1 and its output is unparsable, yet the
caught failure is reported and info mode exits 0. -/
theorem estimator_failures_never_abort_info_mode_witness :
    runMain argvPlain argsInfo wEstFail =
      { exitCode := 0, tools := [.ffprobe, .ffprobe],
        estPrint := some .couldNotAnalyze } := by
  have h := estimator_failures_never_abort_info_mode argvPlain argsInfo wEstFail
    (by decide) rfl rfl rfl
  rw [h.1, h.2.2.1 1 (by decide) rfl]

end Hvec
